import Mathlib

/-!
Shallow embedding of the otelkit tracing library (Go) and proofs about it.

Conventions used throughout:
* Go `float64` values are modelled as exact rationals (`Rat`); every literal
  the code compares against (0, 1, 0.2, …) is exactly representable.
* Go `time.Duration` is modelled as `Int` (nanoseconds).
* A Go function returning `error` is modelled with `Option`/`Except`
  (`none`/`.ok` standing for the nil error).
* A nil Go interface value (`trace.Span`) is `none`; calling a method on it
  is a runtime panic, modelled by the `Outcome.panicked` result.
* External collaborators (OTLP exporter constructors, `os.Getenv`,
  `os.Hostname`, `uuid.NewString`, `strconv`/`time` parsers, `runtime.Stack`)
  are modelled as explicit parameters or uninterpreted constants; the
  library code never inspects their values beyond what is modelled.
-/

/-- Attribute values as produced by `attribute.String` / `attribute.Int`
(go.opentelemetry.io/otel/attribute). -/
inductive AttrValue where
  | str (s : String)
  | int (i : Int)
deriving DecidableEq, Repr

/-- `ConfigError` (internal/config/errors.go): a field-level validation
error, `{Field, Message}`. The top-level package aliases this type
(`type ConfigError = config.ConfigError`). -/
structure ConfigError where
  Field : String
  Message : String
deriving DecidableEq, Repr

/-- `ConfigError.Error()`: `fmt.Sprintf("config error: %s: %s", e.Field, e.Message)`. -/
def ConfigError.Error (e : ConfigError) : String :=
  "config error: " ++ e.Field ++ ": " ++ e.Message

/-- The sampler values the two `createSampler` implementations can build from
the OpenTelemetry SDK: `ParentBased(TraceIDRatioBased(r))`, `AlwaysSample()`,
`NeverSample()`. -/
inductive Sampler where
  | parentBasedTraceIDRatioBased (r : Rat)
  | alwaysSample
  | neverSample
deriving DecidableEq, Repr

/-- The two exporter constructors a protocol switch can select. -/
inductive ExporterKind where
  | http
  | grpc
deriving DecidableEq, Repr

/-- Errors produced on the provider-assembly paths: a `ConfigError` or an
`InitializationError{Component, Cause}` wrapping an external failure. -/
inductive ProviderError where
  | configError (e : ConfigError)
  | initializationError (component : String) (cause : String)
deriving DecidableEq, Repr

namespace otelkit

/-! ### Constants (constants.go, package otelkit) -/

def DefaultServiceName : String := "unknown-service"

def DefaultServiceVersion : String := "1.0.0"

def DefaultEnvironment : String := "development"

def DefaultOTLPExporterEndpoint : String := "localhost:4317"

def DefaultSamplingRatio : Rat := 0.2

def DefaultSamplingType : String := "probabilistic"

def DefaultOTLPExporterProtocol : String := "grpc"

def ValidEnvironments : List String := ["development", "staging", "production"]

def ValidSamplingTypes : List String := ["probabilistic", "always_on", "always_off"]

def ValidOTLPProtocols : List String := ["grpc", "http"]

def AttrHTTPMethod : String := "http.method"

def AttrHTTPURL : String := "http.url"

def AttrHTTPUserAgent : String := "http.user_agent"

def AttrHTTPStatusCode : String := "http.status_code"

def ErrServiceNameRequired : String := "service name is required"

def ErrServiceVersionRequired : String := "service version is required"

def ErrInvalidEnvironment : String := "invalid environment"

def ErrInvalidSamplingType : String := "invalid sampling type"

def ErrInvalidSamplingRatio : String := "sampling ratio must be between 0 and 1"

def ErrInvalidExporterProtocol : String := "invalid exporter protocol"

def ErrInvalidExporterEndpoint : String := "exporter endpoint is required"

/-! ### Config (config.go, package otelkit) -/

/-- `Config` (config.go): tracing configuration parameters. Durations are in
nanoseconds, the sampling ratio is an exact rational. -/
structure Config where
  ServiceName : String
  ServiceVersion : String
  Environment : String
  OTLPExporterEndpoint : String
  OTLPExporterInsecure : Bool
  OTLPExporterProtocol : String
  BatchTimeout : Int
  ExportTimeout : Int
  MaxExportBatchSize : Int
  MaxQueueSize : Int
  SamplingRatio : Rat
  SamplingType : String
  InstanceID : String
  Hostname : String
deriving DecidableEq, Repr

/-- `contains(slice, value)` (config.go): linear scan over a string slice. -/
def contains : List String → String → Bool
  | [], _ => false
  | item :: rest, value => if item = value then true else contains rest value

/-- `Config.Validate` (config.go): sequential field checks, first violation
wins; `none` models the nil error. -/
def Config.Validate (c : Config) : Option ConfigError :=
  if c.ServiceName = "" then some ⟨"ServiceName", ErrServiceNameRequired⟩
  else if c.ServiceVersion = "" then some ⟨"ServiceVersion", ErrServiceVersionRequired⟩
  else if contains ValidEnvironments c.Environment = false then
    some ⟨"Environment", ErrInvalidEnvironment⟩
  else if c.OTLPExporterEndpoint = "" then
    some ⟨"OTLPExporterEndpoint", ErrInvalidExporterEndpoint⟩
  else if c.SamplingRatio < 0 ∨ c.SamplingRatio > 1 then
    some ⟨"SamplingRatio", ErrInvalidSamplingRatio⟩
  else if contains ValidSamplingTypes c.SamplingType = false then
    some ⟨"SamplingType", ErrInvalidSamplingType⟩
  else if contains ValidOTLPProtocols c.OTLPExporterProtocol = false then
    some ⟨"OTLPExporterProtocol", ErrInvalidExporterProtocol⟩
  else none

/-- `createSampler` (provider.go): string-keyed switch over the sampling
type; the default branch falls back to probabilistic sampling at
`DefaultSamplingRatio`. -/
def createSampler (cfg : Config) : Sampler :=
  if cfg.SamplingType = "probabilistic" then
    Sampler.parentBasedTraceIDRatioBased cfg.SamplingRatio
  else if cfg.SamplingType = "always_on" then Sampler.alwaysSample
  else if cfg.SamplingType = "always_off" then Sampler.neverSample
  else Sampler.parentBasedTraceIDRatioBased DefaultSamplingRatio

/-- The exporter switch inside `newProvider` (provider.go). The external OTLP
constructors may fail; their outcome is passed in as `httpErr`/`grpcErr`
(`none` = success). An unrecognized protocol hits the `default` branch and
returns `&ConfigError{Field: "OTLPExporterProtocol", ...}`. -/
def newProviderCreateExporter (cfg : Config) (httpErr grpcErr : Option String) :
    Except ProviderError ExporterKind :=
  if cfg.OTLPExporterProtocol = "http" then
    match httpErr with
    | none => Except.ok ExporterKind.http
    | some e => Except.error (ProviderError.initializationError "exporter" e)
  else if cfg.OTLPExporterProtocol = "grpc" then
    match grpcErr with
    | none => Except.ok ExporterKind.grpc
    | some e => Except.error (ProviderError.initializationError "exporter" e)
  else
    Except.error (ProviderError.configError
      ⟨"OTLPExporterProtocol", "must be \x27grpc\x27 or \x27http\x27"⟩)

end otelkit

namespace config

/-! ### internal/config: type-safe sampling type, constants, Config -/

/-- `SamplingType` (internal/config/constants.go): a defined string type;
every string is a value of it. -/
abbrev SamplingType := String

def SamplingProbabilistic : SamplingType := "probabilistic"

def SamplingAlwaysOn : SamplingType := "always_on"

def SamplingAlwaysOff : SamplingType := "always_off"

/-- `SamplingType.String()`. -/
def SamplingType.String (s : SamplingType) : String := s

/-- `SamplingType.IsValid` (internal/config/constants.go): switch over the
three defined constants. -/
def SamplingType.IsValid (s : SamplingType) : Bool :=
  if s = SamplingProbabilistic then true
  else if s = SamplingAlwaysOn then true
  else if s = SamplingAlwaysOff then true
  else false

def DefaultServiceName : String := "unknown-service"

def DefaultServiceVersion : String := "1.0.0"

def DefaultEnvironment : String := "development"

def DefaultOTLPExporterEndpoint : String := "localhost:4318"

def DefaultSamplingRatio : Rat := 0.2

def DefaultSamplingType : SamplingType := SamplingProbabilistic

def DefaultOTLPExporterProtocol : String := "http"

def DefaultBatchTimeout : Int := 5 * 1000000000

def DefaultExportTimeout : Int := 30 * 1000000000

def DefaultMaxExportBatchSize : Int := 512

def DefaultMaxQueueSize : Int := 2048

def ValidEnvironments : List String := ["development", "staging", "production"]

def ValidSamplingTypes : List String := ["probabilistic", "always_on", "always_off"]

def ValidOTLPProtocols : List String := ["grpc", "http"]

def ErrServiceNameRequired : String := "service name is required"

def ErrServiceVersionRequired : String := "service version is required"

def ErrInvalidEnvironment : String := "invalid environment"

def ErrInvalidSamplingType : String := "invalid sampling type"

def ErrInvalidSamplingRatio : String := "sampling ratio must be between 0 and 1"

def ErrInvalidExporterProtocol : String := "invalid exporter protocol"

def ErrInvalidExporterEndpoint : String := "exporter endpoint is required"

def EnvServiceName : String := "OTEL_SERVICE_NAME"

def EnvServiceVersion : String := "OTEL_SERVICE_VERSION"

def EnvEnvironment : String := "OTEL_ENVIRONMENT"

def EnvOTLPExporterEndpoint : String := "OTEL_EXPORTER_OTLP_ENDPOINT"

def EnvOTLPExporterInsecure : String := "OTEL_EXPORTER_OTLP_INSECURE"

def EnvOTLPExporterProtocol : String := "OTEL_EXPORTER_OTLP_PROTOCOL"

def EnvBatchTimeout : String := "OTEL_BSP_TIMEOUT"

def EnvExportTimeout : String := "OTEL_EXPORTER_TIMEOUT"

def EnvMaxExportBatchSize : String := "OTEL_BSP_MAX_EXPORT_BATCH_SIZE"

def EnvMaxQueueSize : String := "OTEL_BSP_MAX_QUEUE_SIZE"

def EnvSamplingType : String := "OTEL_TRACES_SAMPLER"

def EnvSamplingRatio : String := "OTEL_TRACES_SAMPLER_ARG"

def EnvInstanceID : String := "OTEL_RESOURCE_ATTRIBUTES_SERVICE_INSTANCE_ID"

/-- `Config` (internal/config/config.go): same fields as the top-level one
but with the type-safe `SamplingType`. -/
structure Config where
  ServiceName : String
  ServiceVersion : String
  Environment : String
  OTLPExporterEndpoint : String
  OTLPExporterInsecure : Bool
  OTLPExporterProtocol : String
  BatchTimeout : Int
  ExportTimeout : Int
  MaxExportBatchSize : Int
  MaxQueueSize : Int
  SamplingRatio : Rat
  SamplingType : SamplingType
  InstanceID : String
  Hostname : String
deriving DecidableEq, Repr

/-- The process environment and the external standard-library calls the
config constructors consult: `os.Getenv` (returns "" for an unset variable),
`os.Hostname`, `uuid.NewString`, and the `strconv`/`time` parsers (`none`
models a parse error). -/
structure Sys where
  getenv : String → String
  hostname : String
  newUUID : String
  atoi : String → Option Int
  parseBool : String → Option Bool
  parseFloat : String → Option Rat
  parseDuration : String → Option Int

/-- `getEnv` (internal/config/config.go). -/
def getEnv (sys : Sys) (key defaultValue : String) : String :=
  let value := sys.getenv key
  if value ≠ "" then value else defaultValue

/-- `getEnvInt`. -/
def getEnvInt (sys : Sys) (key : String) (defaultValue : Int) : Int :=
  let value := sys.getenv key
  if value ≠ "" then
    match sys.atoi value with
    | some intVal => intVal
    | none => defaultValue
  else defaultValue

/-- `getEnvBool`. -/
def getEnvBool (sys : Sys) (key : String) (defaultValue : Bool) : Bool :=
  let value := sys.getenv key
  if value ≠ "" then
    match sys.parseBool value with
    | some boolVal => boolVal
    | none => defaultValue
  else defaultValue

/-- `getEnvFloat`. -/
def getEnvFloat (sys : Sys) (key : String) (defaultValue : Rat) : Rat :=
  let value := sys.getenv key
  if value ≠ "" then
    match sys.parseFloat value with
    | some floatVal => floatVal
    | none => defaultValue
  else defaultValue

/-- `getEnvDuration`. -/
def getEnvDuration (sys : Sys) (key : String) (defaultValue : Int) : Int :=
  let value := sys.getenv key
  if value ≠ "" then
    match sys.parseDuration value with
    | some duration => duration
    | none => defaultValue
  else defaultValue

/-- `contains` (internal/config/config.go). -/
def contains : List String → String → Bool
  | [], _ => false
  | item :: rest, value => if item = value then true else contains rest value

/-- `ParseSamplingType` (internal/config/config.go): switch over the three
defined constants, any other string yields `DefaultSamplingType`. -/
def ParseSamplingType (s : String) : SamplingType :=
  if s = SamplingProbabilistic then SamplingProbabilistic
  else if s = SamplingAlwaysOn then SamplingAlwaysOn
  else if s = SamplingAlwaysOff then SamplingAlwaysOff
  else DefaultSamplingType

/-- `NewConfig` (internal/config/config.go): defaults; the unset batch
fields keep Go zero values. -/
def NewConfig (sys : Sys) (serviceName serviceVersion : String) : Config :=
  { ServiceName := serviceName
    ServiceVersion := serviceVersion
    Environment := DefaultEnvironment
    OTLPExporterEndpoint := DefaultOTLPExporterEndpoint
    OTLPExporterInsecure := false
    OTLPExporterProtocol := DefaultOTLPExporterProtocol
    BatchTimeout := 0
    ExportTimeout := 0
    MaxExportBatchSize := 0
    MaxQueueSize := 0
    SamplingRatio := DefaultSamplingRatio
    SamplingType := DefaultSamplingType
    InstanceID := sys.newUUID
    Hostname := sys.hostname }

/-- `NewConfigFromEnv` (internal/config/config.go). -/
def NewConfigFromEnv (sys : Sys) : Config :=
  let cfg := NewConfig sys (getEnv sys EnvServiceName DefaultServiceName)
    (getEnv sys EnvServiceVersion DefaultServiceVersion)
  { cfg with
    Environment := getEnv sys EnvEnvironment DefaultEnvironment
    OTLPExporterProtocol := getEnv sys EnvOTLPExporterProtocol DefaultOTLPExporterProtocol
    BatchTimeout := getEnvDuration sys EnvBatchTimeout DefaultBatchTimeout
    ExportTimeout := getEnvDuration sys EnvExportTimeout DefaultExportTimeout
    MaxExportBatchSize := getEnvInt sys EnvMaxExportBatchSize DefaultMaxExportBatchSize
    MaxQueueSize := getEnvInt sys EnvMaxQueueSize DefaultMaxQueueSize
    OTLPExporterEndpoint := getEnv sys EnvOTLPExporterEndpoint DefaultOTLPExporterEndpoint
    OTLPExporterInsecure := getEnvBool sys EnvOTLPExporterInsecure false
    SamplingRatio := getEnvFloat sys EnvSamplingRatio DefaultSamplingRatio
    SamplingType := ParseSamplingType (getEnv sys EnvSamplingType DefaultSamplingType)
    InstanceID := getEnv sys EnvInstanceID cfg.InstanceID }

/-- `Config.Validate` (internal/config/config.go): like the top-level one
but the sampling-type check goes through `SamplingType.IsValid`. -/
def Config.Validate (c : Config) : Option ConfigError :=
  if c.ServiceName = "" then some ⟨"ServiceName", ErrServiceNameRequired⟩
  else if c.ServiceVersion = "" then some ⟨"ServiceVersion", ErrServiceVersionRequired⟩
  else if contains ValidEnvironments c.Environment = false then
    some ⟨"Environment", ErrInvalidEnvironment⟩
  else if c.OTLPExporterEndpoint = "" then
    some ⟨"OTLPExporterEndpoint", ErrInvalidExporterEndpoint⟩
  else if c.SamplingRatio < 0 ∨ c.SamplingRatio > 1 then
    some ⟨"SamplingRatio", ErrInvalidSamplingRatio⟩
  else if SamplingType.IsValid c.SamplingType = false then
    some ⟨"SamplingType", ErrInvalidSamplingType⟩
  else if contains ValidOTLPProtocols c.OTLPExporterProtocol = false then
    some ⟨"OTLPExporterProtocol", ErrInvalidExporterProtocol⟩
  else none

end config

namespace provider

/-! ### provider/factory.go: factory-pattern sampler and exporter creation -/

/-- `ProbabilisticSamplerFactory.CreateSampler`:
`ParentBased(TraceIDRatioBased(cfg.SamplingRatio))`. -/
def ProbabilisticSamplerFactory.CreateSampler (cfg : config.Config) : Sampler :=
  Sampler.parentBasedTraceIDRatioBased cfg.SamplingRatio

/-- `AlwaysOnSamplerFactory.CreateSampler`. -/
def AlwaysOnSamplerFactory.CreateSampler (_ : config.Config) : Sampler :=
  Sampler.alwaysSample

/-- `AlwaysOffSamplerFactory.CreateSampler`. -/
def AlwaysOffSamplerFactory.CreateSampler (_ : config.Config) : Sampler :=
  Sampler.neverSample

/-- The `samplerFactories` map (provider/factory.go), as a lookup from
sampling type to the factory's `CreateSampler` method. -/
def samplerFactories (t : config.SamplingType) : Option (config.Config → Sampler) :=
  if t = config.SamplingProbabilistic then some ProbabilisticSamplerFactory.CreateSampler
  else if t = config.SamplingAlwaysOn then some AlwaysOnSamplerFactory.CreateSampler
  else if t = config.SamplingAlwaysOff then some AlwaysOffSamplerFactory.CreateSampler
  else none

/-- `createSampler` (provider/factory.go): map lookup; on a miss the code
runs `samplerFactories["probabilistic"].CreateSampler(cfg)`, i.e. the
probabilistic factory applied to the same configuration. -/
def createSampler (cfg : config.Config) : Sampler :=
  match samplerFactories cfg.SamplingType with
  | some factory => factory cfg
  | none => ProbabilisticSamplerFactory.CreateSampler cfg

/-- `createExporter` (provider/factory.go): protocol-keyed switch; the
external OTLP constructors' outcome is passed in (`none` = success);
the default branch returns
`&config.ConfigError{Field: "OTLPExporterProtocol", Message: config.ErrInvalidExporterProtocol}`. -/
def createExporter (cfg : config.Config) (httpErr grpcErr : Option String) :
    Except ProviderError ExporterKind :=
  if cfg.OTLPExporterProtocol = "http" then
    match httpErr with
    | none => Except.ok ExporterKind.http
    | some e => Except.error (ProviderError.initializationError "exporter" e)
  else if cfg.OTLPExporterProtocol = "grpc" then
    match grpcErr with
    | none => Except.ok ExporterKind.grpc
    | some e => Except.error (ProviderError.initializationError "exporter" e)
  else
    Except.error (ProviderError.configError
      ⟨"OTLPExporterProtocol", config.ErrInvalidExporterProtocol⟩)

end provider

namespace otelkit

/-! ### Ambient provider installation (provider.go)

`var setOnce sync.Once` guards `otel.SetTracerProvider(tp)`. The sequential
state is: whether the Once has fired, which provider handle (if any) is the
ambient one, and a counter allocating fresh handles. `newProvider` builds a
fresh `*sdktrace.TracerProvider` (a new heap object each call) or fails with
an error before any global state is touched; the external failure modes
(resource/exporter construction, validation) are summarized by the `buildOk`
parameter. -/

/-- The process-wide state the provider constructors touch: the `setOnce`
guard, the ambient provider slot behind `otel.SetTracerProvider`, and a
fresh-handle allocator (each successful `newProvider` call yields a new
heap object, identified here by a number). -/
structure AmbientWorld where
  onceDone : Bool
  ambient : Option Nat
  nextId : Nat
deriving DecidableEq, Repr

/-- `setOnce.Do(func() { otel.SetTracerProvider(tp) })`: runs the closure
only if the Once has not fired yet, and marks it fired. -/
def setOnceDoSetProvider (w : AmbientWorld) (tp : Nat) : AmbientWorld :=
  if w.onceDone then w
  else { w with onceDone := true, ambient := some tp }

/-- `NewProvider` (provider.go): build via `newProvider`; on error return it
with no state change; on success allocate the new handle and run the
`setOnce`-guarded installation. -/
def NewProvider (w : AmbientWorld) (buildOk : Bool) : Option Nat × AmbientWorld :=
  if buildOk then
    let tp := w.nextId
    let w1 : AmbientWorld := { w with nextId := w.nextId + 1 }
    (some tp, setOnceDoSetProvider w1 tp)
  else (none, w)

/-- `NewDefaultProvider` (provider.go): `newDefaultProvider` validates the
default config and calls `NewProvider`; on success `NewDefaultProvider` runs
its own `setOnce.Do` on the same guard (a no-op if `NewProvider` already
fired it). -/
def NewDefaultProvider (w : AmbientWorld) (buildOk : Bool) : Option Nat × AmbientWorld :=
  match NewProvider w buildOk with
  | (none, w1) => (none, w1)
  | (some tp, w1) => (some tp, setOnceDoSetProvider w1 tp)

/-! ### HTTP middleware (middleware.go)

A handler's externally visible behaviour towards its `http.ResponseWriter`
is the sequence of `WriteHeader`/`Write` calls it makes; the middleware
interposes the `responseWriter` decorator, which records the status and
forwards every call to the wrapped writer unchanged. Context propagation
(`propagator.Extract`) affects only the trace parentage, not any field
stated here, and is not modelled. -/

/-- One call a handler makes on its `http.ResponseWriter`. -/
inductive WriterOp where
  | writeHeader (code : Int)
  | write (chunk : String)
deriving DecidableEq, Repr

/-- The mutable state of the `responseWriter` decorator (middleware.go):
the captured status code, initialized to `http.StatusOK`. -/
structure ResponseWriterState where
  status : Int
deriving DecidableEq, Repr

/-- One decorator step: `WriteHeader` stores the code and forwards it; the
embedded `http.ResponseWriter` receives `Write` calls untouched. -/
def responseWriterStep (w : ResponseWriterState) (op : WriterOp) :
    ResponseWriterState × WriterOp :=
  match op with
  | WriterOp.writeHeader code => ({ status := code }, WriterOp.writeHeader code)
  | WriterOp.write chunk => (w, WriterOp.write chunk)

/-- Run the decorator over the handler's whole call sequence, returning its
final state and the calls forwarded to the underlying writer. -/
def responseWriterRun : ResponseWriterState → List WriterOp → ResponseWriterState × List WriterOp
  | w, [] => (w, [])
  | w, op :: ops =>
    let p := responseWriterStep w op
    let q := responseWriterRun p.1 ops
    (q.1, p.2 :: q.2)

/-- The HTTP request fields the middleware reads. -/
structure HTTPRequest where
  method : String
  urlPath : String
  urlString : String
  userAgent : String
deriving DecidableEq, Repr

inductive SpanKind where
  | server
  | client
  | internalKind
deriving DecidableEq, Repr

/-- A span as sealed by the middleware at handler return: name, kind, and
attributes in the order they were set. -/
structure SealedSpan where
  name : String
  kind : SpanKind
  attrs : List (String × AttrValue)
deriving DecidableEq, Repr

/-- `HTTPMiddleware.Middleware` (middleware.go): starts a server span named
`r.Method + " " + r.URL.Path` with method/URL/user-agent attributes, runs
the wrapped handler against the `responseWriter` decorator, then records
`http.status_code` from the decorator and ends the span. When no provider
is installed every span operation is a no-op (noop tracer), so no sealed
span is produced; the response path is identical either way. -/
def Middleware (providerInstalled : Bool) (next : HTTPRequest → List WriterOp)
    (r : HTTPRequest) : Option SealedSpan × List WriterOp :=
  let operationName := r.method ++ " " ++ r.urlPath
  let startAttrs : List (String × AttrValue) :=
    [(AttrHTTPMethod, AttrValue.str r.method),
     (AttrHTTPURL, AttrValue.str r.urlString),
     (AttrHTTPUserAgent, AttrValue.str r.userAgent)]
  let rw : ResponseWriterState := { status := 200 }
  let run := responseWriterRun rw (next r)
  let sealed : SealedSpan :=
    { name := operationName
      kind := SpanKind.server
      attrs := startAttrs ++ [(AttrHTTPStatusCode, AttrValue.int run.1.status)] }
  ((if providerInstalled then some sealed else none), run.2)

/-- The code of the last `WriteHeader` call in a sequence, if any
(each call overwrites the decorator's captured status). -/
def lastWriteHeader : List WriterOp → Option Int
  | [] => none
  | WriterOp.writeHeader code :: ops => some ((lastWriteHeader ops).getD code)
  | WriterOp.write _ :: ops => lastWriteHeader ops

/-- The code of the first `WriteHeader` call: the one the `net/http` layer
actually sends to the client (later calls are ignored by it). -/
def firstWriteHeader : List WriterOp → Option Int
  | [] => none
  | WriterOp.writeHeader code :: _ => some code
  | WriterOp.write _ :: ops => firstWriteHeader ops

/-- The body bytes a call sequence writes, in order. -/
def writtenBody : List WriterOp → String
  | [] => ""
  | WriterOp.writeHeader _ :: ops => writtenBody ops
  | WriterOp.write chunk :: ops => chunk ++ writtenBody ops

end otelkit

namespace tracer

/-! ### tracer: span helper functions (tracer/http_client.go, errors.go)

`trace.Span` is a Go interface; a nil interface value is `none`. Invoking
any method on a nil interface is a runtime panic, modelled by
`Outcome.panicked`; the helpers guard against it with explicit nil checks. -/

/-- Result of running a statement sequence: a value, or a runtime panic. -/
inductive Outcome (α : Type) where
  | ok (value : α)
  | panicked
deriving DecidableEq, Repr

/-- Sequencing: a panic aborts the rest. -/
def Outcome.bind {α β : Type} : Outcome α → (α → Outcome β) → Outcome β
  | Outcome.ok a, f => f a
  | Outcome.panicked, _ => Outcome.panicked

inductive SpanStatus where
  | unset
  | ok
  | error
deriving DecidableEq, Repr

/-- The observable state of a (recording) span: attributes and events in
set order, status/message, whether `End` was called, and the errors passed
to `span.RecordError`. -/
structure SpanState where
  attrs : List (String × AttrValue)
  events : List (String × List (String × AttrValue))
  status : SpanStatus
  statusMessage : String
  ended : Bool
  recorded : List String
deriving DecidableEq, Repr

/-- A `trace.Span` interface value: `none` is the nil interface. -/
abbrev Span := Option SpanState

/-- `span.SetAttributes(attrs...)`: panics on a nil interface. -/
def Span.SetAttributes : Span → List (String × AttrValue) → Outcome Span
  | none, _ => Outcome.panicked
  | some s, as => Outcome.ok (some { s with attrs := s.attrs ++ as })

/-- `span.AddEvent(name, trace.WithAttributes(attrs...))`. -/
def Span.AddEvent : Span → String → List (String × AttrValue) → Outcome Span
  | none, _, _ => Outcome.panicked
  | some s, n, as => Outcome.ok (some { s with events := s.events ++ [(n, as)] })

/-- `span.RecordError(err)`. -/
def Span.RecordError : Span → String → Outcome Span
  | none, _ => Outcome.panicked
  | some s, msg => Outcome.ok (some { s with recorded := s.recorded ++ [msg] })

/-- `span.SetStatus(code, msg)`. -/
def Span.SetStatus : Span → SpanStatus → String → Outcome Span
  | none, _, _ => Outcome.panicked
  | some s, code, msg =>
    Outcome.ok (some { s with status := code, statusMessage := msg })

/-- `span.End()`. -/
def Span.End : Span → Outcome Span
  | none => Outcome.panicked
  | some s => Outcome.ok (some { s with ended := true })

/-- `AddAttributes` (tracer/http_client.go): `if span != nil { span.SetAttributes(attrs...) }`. -/
def AddAttributes (span : Span) (attrs : List (String × AttrValue)) : Outcome Span :=
  match span with
  | some _ => Span.SetAttributes span attrs
  | none => Outcome.ok span

/-- `AddEvent` (tracer/http_client.go): `if span != nil { span.AddEvent(...) }`. -/
def AddEvent (span : Span) (name : String) (attrs : List (String × AttrValue)) : Outcome Span :=
  match span with
  | some _ => Span.AddEvent span name attrs
  | none => Outcome.ok span

/-- `time.Duration.String()` modelled as a decimal rendering; only the
presence of the attribute matters to any claim. -/
def durationString (d : Int) : String := toString d

/-- `AddTimedEvent` (tracer/http_client.go): calls `span.AddEvent` directly,
with no nil check. -/
def AddTimedEvent (span : Span) (name : String) (duration : Int) : Outcome Span :=
  Span.AddEvent span name [("duration", AttrValue.str (durationString duration))]

/-- `RecordError` (tracer/http_client.go):
`if span == nil || err == nil { return }` then `span.RecordError(err)` and
`span.SetStatus(codes.Error, err.Error())`. The error is modelled by its
`Error()` string; `none` is the nil error. -/
def RecordError (span : Span) (err : Option String) : Outcome Span :=
  match span, err with
  | none, _ => Outcome.ok span
  | some s, none => Outcome.ok (some s)
  | some s, some msg =>
    Outcome.bind (Span.RecordError (some s) msg) fun sp =>
      Span.SetStatus sp SpanStatus.error msg

/-- `EndSpan` (tracer/http_client.go): `if span != nil { span.End() }`. -/
def EndSpan (span : Span) : Outcome Span :=
  match span with
  | some _ => Span.End span
  | none => Outcome.ok span

/-- `IsRecording` (tracer/http_client.go): false on nil, otherwise whether
the span context is valid (modelled as a field-free approximation: a
recording span state counts as valid). -/
def IsRecording (span : Span) : Bool :=
  match span with
  | none => false
  | some _ => true

/-! ### tracer: enhanced error recording (tracer/errors.go) -/

/-- `ErrorType` (tracer/errors.go): a defined string type. -/
abbrev ErrorType := String

def ErrorTypeNetwork : ErrorType := "network"

def ErrorTypeDatabase : ErrorType := "database"

def ErrorTypeValidation : ErrorType := "validation"

def ErrorTypeSystem : ErrorType := "system"

def ErrorTypeCustom : ErrorType := "custom"

/-- `errorConfiguration` state built by the options (the Go struct
`errorConfig`). -/
structure ErrorConfig where
  errorType : ErrorType
  stackTrace : Bool
  errorCode : String
  customAttrs : List (String × AttrValue)
deriving DecidableEq, Repr

/-- `ErrorOption`: outside the package the only inhabitants of the opaque
`func(*errorConfig)` type are the four exported constructors and the nil
function, so the option type is embedded as this closed sum. -/
inductive ErrorOption where
  | withErrorType (t : ErrorType)
  | withStackTrace (enabled : Bool)
  | withErrorCode (code : String)
  | withErrorAttributes (attrs : List (String × AttrValue))
  | nilOption
deriving DecidableEq, Repr

/-- The effect of one option on the configuration (`WithErrorType` et al.);
a nil option is skipped by the `if opt != nil` guard. -/
def applyErrorOption (c : ErrorConfig) : ErrorOption → ErrorConfig
  | ErrorOption.withErrorType t => { c with errorType := t }
  | ErrorOption.withStackTrace enabled => { c with stackTrace := enabled }
  | ErrorOption.withErrorCode code => { c with errorCode := code }
  | ErrorOption.withErrorAttributes attrs => { c with customAttrs := c.customAttrs ++ attrs }
  | ErrorOption.nilOption => c

/-- The default `errorConfig` built at the top of `RecordErrorEnhanced`:
custom type, no stack trace, no code. -/
def defaultErrorConfig : ErrorConfig :=
  { errorType := ErrorTypeCustom, stackTrace := false, errorCode := "", customAttrs := [] }

/-- `captureStackTrace` (tracer/errors.go) returns the `runtime.Stack`
output: runtime data, modelled as an uninterpreted constant string. -/
def captureStackTrace : String := "goroutine 1 [running]"

/-- The classification attributes `RecordErrorEnhanced` appends before the
custom ones: `error.type`, then `error.code` if a non-empty code is
configured, then `error.stack_trace` if capture is enabled. -/
def classificationAttrs (c : ErrorConfig) : List (String × AttrValue) :=
  [("error.type", AttrValue.str c.errorType)]
    ++ (if c.errorCode = "" then [] else [("error.code", AttrValue.str c.errorCode)])
    ++ (if c.stackTrace then [("error.stack_trace", AttrValue.str captureStackTrace)] else [])

/-- All the attributes `RecordErrorEnhanced` sets: classification attributes
followed by the caller's custom attributes. -/
def errorAttrsFor (c : ErrorConfig) : List (String × AttrValue) :=
  classificationAttrs c ++ c.customAttrs

/-- `RecordErrorEnhanced` (tracer/errors.go): nil-span/nil-error guard, fold
the non-nil options over the default configuration, then
`span.RecordError(err)`, `span.SetStatus(codes.Error, err.Error())` and
`span.SetAttributes` with type/code/stack-trace/custom attributes. -/
def RecordErrorEnhanced (span : Span) (err : Option String) (opts : List ErrorOption) :
    Outcome Span :=
  match span, err with
  | none, _ => Outcome.ok span
  | some s, none => Outcome.ok (some s)
  | some s, some msg =>
    let cfg := opts.foldl applyErrorOption defaultErrorConfig
    let attrs1 : List (String × AttrValue) := [("error.type", AttrValue.str cfg.errorType)]
    let attrs2 := if cfg.errorCode = "" then attrs1
      else attrs1 ++ [("error.code", AttrValue.str cfg.errorCode)]
    let attrs3 := if cfg.stackTrace then
        attrs2 ++ [("error.stack_trace", AttrValue.str captureStackTrace)]
      else attrs2
    let attrs4 := attrs3 ++ cfg.customAttrs
    Outcome.bind (Span.RecordError (some s) msg) fun sp1 =>
      Outcome.bind (Span.SetStatus sp1 SpanStatus.error msg) fun sp2 =>
        Span.SetAttributes sp2 attrs4

end tracer

/-! ### Concrete sample inputs used by witnesses and counterexamples -/

/-- A top-level configuration that passes every `Validate` check. -/
def baseValidConfig : otelkit.Config :=
  { ServiceName := "payment-service"
    ServiceVersion := "1.0.0"
    Environment := "development"
    OTLPExporterEndpoint := "localhost:4317"
    OTLPExporterInsecure := false
    OTLPExporterProtocol := "grpc"
    BatchTimeout := 0
    ExportTimeout := 0
    MaxExportBatchSize := 0
    MaxQueueSize := 0
    SamplingRatio := 0.2
    SamplingType := "probabilistic"
    InstanceID := "instance-1"
    Hostname := "host-1" }

/-- Valid in every earlier-checked field, but with the unsupported exporter
protocol "udp". -/
def udpConfig : otelkit.Config :=
  { baseValidConfig with OTLPExporterProtocol := "udp" }

/-- Protocol "udp" and an empty service name. -/
def badNameUdpConfig : otelkit.Config :=
  { udpConfig with ServiceName := "" }

/-- Valid in every earlier-checked field, sampling ratio 1.5. -/
def ratioOutConfig : otelkit.Config :=
  { baseValidConfig with SamplingRatio := 1.5 }

/-- Unrecognized sampling type with a non-default ratio (top-level config). -/
def unknownTypeTopConfig : otelkit.Config :=
  { baseValidConfig with SamplingType := "adaptive", SamplingRatio := 0.7 }

/-- An internal-package configuration with an unrecognized sampling type and
a non-default ratio. -/
def unknownTypeConfig : config.Config :=
  { ServiceName := "payment-service"
    ServiceVersion := "1.0.0"
    Environment := "development"
    OTLPExporterEndpoint := "localhost:4318"
    OTLPExporterInsecure := false
    OTLPExporterProtocol := "http"
    BatchTimeout := 0
    ExportTimeout := 0
    MaxExportBatchSize := 0
    MaxQueueSize := 0
    SamplingRatio := 0.7
    SamplingType := "adaptive"
    InstanceID := "instance-1"
    Hostname := "host-1" }

/-- An internal-package configuration with the unsupported protocol "udp". -/
def udpInternalConfig : config.Config :=
  { unknownTypeConfig with
    OTLPExporterProtocol := "udp"
    SamplingType := "probabilistic"
    SamplingRatio := 0.2 }

/-- An empty span state to instantiate span-helper theorems at. -/
def emptySpanState : tracer.SpanState :=
  { attrs := [], events := [], status := tracer.SpanStatus.unset
    statusMessage := "", ended := false, recorded := [] }

/-! ## Theorems -/

/-- The `responseWriter` decorator forwards every handler call to the
underlying `http.ResponseWriter` unchanged. -/
theorem responseWriterRun_forwards (w : otelkit.ResponseWriterState)
    (ops : List otelkit.WriterOp) :
    (otelkit.responseWriterRun w ops).2 = ops := by
  induction ops generalizing w with
  | nil => rfl
  | cons op ops ih =>
    cases op <;> simp [otelkit.responseWriterRun, otelkit.responseWriterStep, ih]

/-- The decorator's final captured status is the last `WriteHeader` code, or
its initial status when the handler never called `WriteHeader`. -/
theorem responseWriterRun_status (w : otelkit.ResponseWriterState)
    (ops : List otelkit.WriterOp) :
    (otelkit.responseWriterRun w ops).1.status = (otelkit.lastWriteHeader ops).getD w.status := by
  induction ops generalizing w with
  | nil => rfl
  | cons op ops ih =>
    cases op with
    | writeHeader code =>
      simp only [otelkit.responseWriterRun, otelkit.responseWriterStep,
        otelkit.lastWriteHeader, ih]
      cases otelkit.lastWriteHeader ops <;> rfl
    | write chunk =>
      simp [otelkit.responseWriterRun, otelkit.responseWriterStep, otelkit.lastWriteHeader, ih]

/-- C3: the span the middleware seals for a request is named
"method path", has server kind and method/URL/user-agent attributes, and its
`http.status_code` attribute is the last status the handler wrote via
`WriteHeader`, or 200 if the handler never called it. -/
theorem middleware_span_capture (next : otelkit.HTTPRequest → List otelkit.WriterOp)
    (r : otelkit.HTTPRequest) :
    (otelkit.Middleware true next r).1 = some
      { name := r.method ++ " " ++ r.urlPath
        kind := otelkit.SpanKind.server
        attrs := [(otelkit.AttrHTTPMethod, AttrValue.str r.method),
                  (otelkit.AttrHTTPURL, AttrValue.str r.urlString),
                  (otelkit.AttrHTTPUserAgent, AttrValue.str r.userAgent),
                  (otelkit.AttrHTTPStatusCode,
                    AttrValue.int ((otelkit.lastWriteHeader (next r)).getD 200))] } := by
  simp [otelkit.Middleware, responseWriterRun_status]

/-- C8: the middleware's decorator is transparent — the underlying writer
receives exactly the handler's calls, so the client-visible status and body
are exactly what the handler wrote, for every tracing-subsystem state
(provider installed or not). -/
theorem middleware_response_transparent (installed : Bool)
    (next : otelkit.HTTPRequest → List otelkit.WriterOp) (r : otelkit.HTTPRequest) :
    (otelkit.Middleware installed next r).2 = next r ∧
    otelkit.writtenBody (otelkit.Middleware installed next r).2 = otelkit.writtenBody (next r) ∧
    otelkit.firstWriteHeader (otelkit.Middleware installed next r).2 =
      otelkit.firstWriteHeader (next r) := by
  have h : (otelkit.Middleware installed next r).2 = next r := by
    simp [otelkit.Middleware, responseWriterRun_forwards]
  exact ⟨h, by rw [h], by rw [h]⟩

/-- C6: `AddAttributes`, `AddEvent`, `RecordError` and `EndSpan` are no-ops
(no error, no panic) on a nil span, and `RecordError`/`RecordErrorEnhanced`
are also no-ops on a nil error, leaving the span unchanged. -/
theorem span_helpers_nil_safe (s : tracer.SpanState)
    (attrs : List (String × AttrValue)) (name : String) (msg : String)
    (opts : List tracer.ErrorOption) :
    tracer.AddAttributes none attrs = tracer.Outcome.ok none ∧
    tracer.AddEvent none name attrs = tracer.Outcome.ok none ∧
    tracer.RecordError none (some msg) = tracer.Outcome.ok none ∧
    tracer.RecordError none none = tracer.Outcome.ok none ∧
    tracer.RecordError (some s) none = tracer.Outcome.ok (some s) ∧
    tracer.EndSpan none = tracer.Outcome.ok none ∧
    tracer.RecordErrorEnhanced none (some msg) opts = tracer.Outcome.ok none ∧
    tracer.RecordErrorEnhanced (some s) none opts = tracer.Outcome.ok (some s) :=
  ⟨rfl, rfl, rfl, rfl, rfl, rfl, rfl, rfl⟩

/-- C9: `AddTimedEvent` alone performs no nil check — on a nil span it calls
`AddEvent` on the nil interface and panics, unlike the other span helpers. -/
theorem addTimedEvent_no_nil_check (name : String) (d : Int)
    (attrs : List (String × AttrValue)) (msg : String) :
    tracer.AddTimedEvent none name d = tracer.Outcome.panicked ∧
    tracer.AddAttributes none attrs = tracer.Outcome.ok none ∧
    tracer.AddEvent none name attrs = tracer.Outcome.ok none ∧
    tracer.RecordError none (some msg) = tracer.Outcome.ok none ∧
    tracer.EndSpan none = tracer.Outcome.ok none :=
  ⟨rfl, rfl, rfl, rfl, rfl⟩

/-- `ParseSamplingType` always produces one of the three defined constants. -/
theorem parseSamplingType_isValid (s : String) :
    config.SamplingType.IsValid (config.ParseSamplingType s) = true := by
  unfold config.ParseSamplingType config.SamplingType.IsValid
  split_ifs <;> simp_all [config.DefaultSamplingType, config.SamplingProbabilistic,
    config.SamplingAlwaysOn, config.SamplingAlwaysOff]

/-- C10: `ParseSamplingType` is total — it returns the input string when it
is one of the three recognized values and the default (probabilistic) for
every other string — and the sampling type `NewConfigFromEnv` produces is
always valid, whatever the environment holds. -/
theorem parseSamplingType_total_and_env_valid (s : String) (sys : config.Sys) :
    (config.ParseSamplingType s =
      if s = "probabilistic" ∨ s = "always_on" ∨ s = "always_off" then s
      else config.SamplingProbabilistic) ∧
    config.SamplingType.IsValid (config.ParseSamplingType s) = true ∧
    config.SamplingType.IsValid (config.NewConfigFromEnv sys).SamplingType = true := by
  refine ⟨?_, parseSamplingType_isValid s, ?_⟩
  · unfold config.ParseSamplingType
    split_ifs <;> simp_all [config.DefaultSamplingType, config.SamplingProbabilistic,
      config.SamplingAlwaysOn, config.SamplingAlwaysOff]
  · have h : (config.NewConfigFromEnv sys).SamplingType =
        config.ParseSamplingType
          (config.getEnv sys config.EnvSamplingType config.DefaultSamplingType) := rfl
    rw [h]
    exact parseSamplingType_isValid _

/-- C2: the ambient provider slot is single-assignment. A failed
construction changes nothing; the first successful `NewProvider` or
`NewDefaultProvider` call installs its handle as the ambient provider and
fires the `setOnce` guard; every later successful call returns a fresh
handle (distinct from the installed one) and leaves the ambient provider
unchanged. -/
theorem ambient_provider_single_assignment (w : otelkit.AmbientWorld)
    (hfresh : ∀ a, w.ambient = some a → a < w.nextId) :
    (otelkit.NewProvider w false).2 = w ∧
    (otelkit.NewDefaultProvider w false).2 = w ∧
    (otelkit.NewProvider w false).1 = none ∧
    (otelkit.NewDefaultProvider w false).1 = none ∧
    (w.onceDone = false →
      (otelkit.NewProvider w true).1 = some w.nextId ∧
      (otelkit.NewProvider w true).2.ambient = some w.nextId ∧
      (otelkit.NewProvider w true).2.onceDone = true ∧
      (otelkit.NewDefaultProvider w true).1 = some w.nextId ∧
      (otelkit.NewDefaultProvider w true).2.ambient = some w.nextId) ∧
    (w.onceDone = true →
      (otelkit.NewProvider w true).1 = some w.nextId ∧
      (otelkit.NewProvider w true).2.ambient = w.ambient ∧
      (otelkit.NewProvider w true).2.onceDone = true ∧
      (otelkit.NewProvider w true).1 ≠ w.ambient ∧
      (otelkit.NewDefaultProvider w true).1 = some w.nextId ∧
      (otelkit.NewDefaultProvider w true).2.ambient = w.ambient) := by
  refine ⟨rfl, rfl, rfl, rfl, ?_, ?_⟩
  · intro h
    simp [otelkit.NewProvider, otelkit.NewDefaultProvider, otelkit.setOnceDoSetProvider, h]
  · intro h
    have h1 : (otelkit.NewProvider w true).1 = some w.nextId := by
      simp [otelkit.NewProvider]
    refine ⟨h1, ?_, ?_, ?_, ?_, ?_⟩
    · simp [otelkit.NewProvider, otelkit.setOnceDoSetProvider, h]
    · simp [otelkit.NewProvider, otelkit.setOnceDoSetProvider, h]
    · rw [h1]
      intro heq
      have := hfresh w.nextId heq.symm
      omega
    · simp [otelkit.NewDefaultProvider, otelkit.NewProvider, otelkit.setOnceDoSetProvider, h]
    · simp [otelkit.NewDefaultProvider, otelkit.NewProvider, otelkit.setOnceDoSetProvider, h]

/-- Witness for C2 at the world reached after one successful install
(guard fired, provider 0 ambient, next fresh handle 1). -/
theorem ambient_provider_single_assignment_witness :
    (otelkit.NewProvider ⟨true, some 0, 1⟩ false).2 = ⟨true, some 0, 1⟩ ∧
    (otelkit.NewDefaultProvider ⟨true, some 0, 1⟩ false).2 = ⟨true, some 0, 1⟩ ∧
    (otelkit.NewProvider ⟨true, some 0, 1⟩ false).1 = none ∧
    (otelkit.NewDefaultProvider ⟨true, some 0, 1⟩ false).1 = none ∧
    ((otelkit.AmbientWorld.mk true (some 0) 1).onceDone = false →
      (otelkit.NewProvider ⟨true, some 0, 1⟩ true).1 = some 1 ∧
      (otelkit.NewProvider ⟨true, some 0, 1⟩ true).2.ambient = some 1 ∧
      (otelkit.NewProvider ⟨true, some 0, 1⟩ true).2.onceDone = true ∧
      (otelkit.NewDefaultProvider ⟨true, some 0, 1⟩ true).1 = some 1 ∧
      (otelkit.NewDefaultProvider ⟨true, some 0, 1⟩ true).2.ambient = some 1) ∧
    ((otelkit.AmbientWorld.mk true (some 0) 1).onceDone = true →
      (otelkit.NewProvider ⟨true, some 0, 1⟩ true).1 = some 1 ∧
      (otelkit.NewProvider ⟨true, some 0, 1⟩ true).2.ambient = some 0 ∧
      (otelkit.NewProvider ⟨true, some 0, 1⟩ true).2.onceDone = true ∧
      (otelkit.NewProvider ⟨true, some 0, 1⟩ true).1 ≠ some 0 ∧
      (otelkit.NewDefaultProvider ⟨true, some 0, 1⟩ true).1 = some 1 ∧
      (otelkit.NewDefaultProvider ⟨true, some 0, 1⟩ true).2.ambient = some 0) :=
  ambient_provider_single_assignment ⟨true, some 0, 1⟩
    (by intro a h; simp at h ⊢; omega)

/-- C5: for a configuration whose earlier-checked fields (service name,
version, environment, endpoint) are valid, a sampling ratio outside [0,1]
makes `Validate` return the `ConfigError` for field "SamplingRatio", and a
ratio within [0,1] can never produce a "SamplingRatio" error. -/
theorem validate_sampling_ratio_check (c : otelkit.Config)
    (hname : c.ServiceName ≠ "") (hver : c.ServiceVersion ≠ "")
    (henv : otelkit.contains otelkit.ValidEnvironments c.Environment = true)
    (hend : c.OTLPExporterEndpoint ≠ "") :
    ((c.SamplingRatio < 0 ∨ c.SamplingRatio > 1) →
      otelkit.Config.Validate c = some ⟨"SamplingRatio", otelkit.ErrInvalidSamplingRatio⟩) ∧
    ((0 ≤ c.SamplingRatio ∧ c.SamplingRatio ≤ 1) →
      ∀ e, otelkit.Config.Validate c = some e → e.Field ≠ "SamplingRatio") := by
  constructor
  · intro hout
    simp [otelkit.Config.Validate, hname, hver, henv, hend, hout]
  · rintro ⟨h0, h1⟩ e he
    have hnot : ¬ (c.SamplingRatio < 0 ∨ c.SamplingRatio > 1) := by
      rintro (hh | hh) <;> linarith
    by_cases ht : otelkit.contains otelkit.ValidSamplingTypes c.SamplingType = false
    · have hv : otelkit.Config.Validate c =
          some ⟨"SamplingType", otelkit.ErrInvalidSamplingType⟩ := by
        simp [otelkit.Config.Validate, hname, hver, henv, hend, hnot, ht]
      rw [hv] at he
      injection he with h2
      subst h2
      decide
    · by_cases hp : otelkit.contains otelkit.ValidOTLPProtocols c.OTLPExporterProtocol = false
      · have hv : otelkit.Config.Validate c =
            some ⟨"OTLPExporterProtocol", otelkit.ErrInvalidExporterProtocol⟩ := by
          simp [otelkit.Config.Validate, hname, hver, henv, hend, hnot, ht, hp]
        rw [hv] at he
        injection he with h2
        subst h2
        decide
      · have hv : otelkit.Config.Validate c = none := by
          simp [otelkit.Config.Validate, hname, hver, henv, hend, hnot, ht, hp]
        rw [hv] at he
        cases he

/-- Witness for C5 at the concrete configuration with ratio 1.5 (the spec's
own example). -/
theorem validate_sampling_ratio_check_witness :
    ((ratioOutConfig.SamplingRatio < 0 ∨ ratioOutConfig.SamplingRatio > 1) →
      otelkit.Config.Validate ratioOutConfig =
        some ⟨"SamplingRatio", otelkit.ErrInvalidSamplingRatio⟩) ∧
    ((0 ≤ ratioOutConfig.SamplingRatio ∧ ratioOutConfig.SamplingRatio ≤ 1) →
      ∀ e, otelkit.Config.Validate ratioOutConfig = some e → e.Field ≠ "SamplingRatio") :=
  validate_sampling_ratio_check ratioOutConfig (by decide) (by decide) (by decide) (by decide)

/-- C4 counterexample: on protocol "udp" both paths do return a ConfigError,
but its `Field` is "OTLPExporterProtocol", not "Protocol"; and a udp-protocol
configuration with an empty service name makes `Validate` report
"ServiceName" instead, so the claim also fails for configurations whose
earlier-checked fields are invalid. -/
theorem protocol_field_name_counterexample :
    otelkit.Config.Validate udpConfig =
      some ⟨"OTLPExporterProtocol", otelkit.ErrInvalidExporterProtocol⟩ ∧
    Option.map ConfigError.Field (otelkit.Config.Validate udpConfig) ≠ some "Protocol" ∧
    otelkit.newProviderCreateExporter udpConfig none none =
      Except.error (ProviderError.configError
        ⟨"OTLPExporterProtocol", "must be \x27grpc\x27 or \x27http\x27"⟩) ∧
    provider.createExporter udpInternalConfig none none =
      Except.error (ProviderError.configError
        ⟨"OTLPExporterProtocol", config.ErrInvalidExporterProtocol⟩) ∧
    otelkit.Config.Validate badNameUdpConfig =
      some ⟨"ServiceName", otelkit.ErrServiceNameRequired⟩ := by
  have h1 : otelkit.Config.Validate udpConfig =
      some ⟨"OTLPExporterProtocol", otelkit.ErrInvalidExporterProtocol⟩ := by
    norm_num [otelkit.Config.Validate, udpConfig, baseValidConfig, otelkit.contains,
      otelkit.ValidEnvironments, otelkit.ValidSamplingTypes, otelkit.ValidOTLPProtocols]
    decide
  have h5 : otelkit.Config.Validate badNameUdpConfig =
      some ⟨"ServiceName", otelkit.ErrServiceNameRequired⟩ := by
    simp [otelkit.Config.Validate, badNameUdpConfig, udpConfig, baseValidConfig]
  have h3 : otelkit.newProviderCreateExporter udpConfig none none =
      Except.error (ProviderError.configError
        ⟨"OTLPExporterProtocol", "must be \x27grpc\x27 or \x27http\x27"⟩) := by
    simp [otelkit.newProviderCreateExporter, udpConfig, baseValidConfig]
  have h4 : provider.createExporter udpInternalConfig none none =
      Except.error (ProviderError.configError
        ⟨"OTLPExporterProtocol", config.ErrInvalidExporterProtocol⟩) := by
    simp [provider.createExporter, udpInternalConfig, unknownTypeConfig]
  exact ⟨h1, by rw [h1]; decide, h3, h4, h5⟩

/-- C4 amended: for a configuration whose earlier-checked fields are valid
and whose protocol is not "grpc"/"http", `Validate` returns a ConfigError
for the field "OTLPExporterProtocol"; on the assembly paths the exporter
switches return a ConfigError for the same field for EVERY configuration
with such a protocol, regardless of its other fields (the switch never
consults them) — always an error value, never a panic. -/
theorem unknown_protocol_config_error (c : otelkit.Config) (ic : config.Config)
    (hname : c.ServiceName ≠ "") (hver : c.ServiceVersion ≠ "")
    (henv : otelkit.contains otelkit.ValidEnvironments c.Environment = true)
    (hend : c.OTLPExporterEndpoint ≠ "")
    (h0 : 0 ≤ c.SamplingRatio) (h1 : c.SamplingRatio ≤ 1)
    (htype : otelkit.contains otelkit.ValidSamplingTypes c.SamplingType = true)
    (hproto : otelkit.contains otelkit.ValidOTLPProtocols c.OTLPExporterProtocol = false)
    (iph : ic.OTLPExporterProtocol ≠ "http") (ipg : ic.OTLPExporterProtocol ≠ "grpc") :
    otelkit.Config.Validate c =
      some ⟨"OTLPExporterProtocol", otelkit.ErrInvalidExporterProtocol⟩ ∧
    (∀ c2 : otelkit.Config, c2.OTLPExporterProtocol ≠ "http" →
      c2.OTLPExporterProtocol ≠ "grpc" → ∀ httpErr grpcErr : Option String,
      otelkit.newProviderCreateExporter c2 httpErr grpcErr =
        Except.error (ProviderError.configError
          ⟨"OTLPExporterProtocol", "must be \x27grpc\x27 or \x27http\x27"⟩)) ∧
    (∀ httpErr grpcErr : Option String,
      provider.createExporter ic httpErr grpcErr =
        Except.error (ProviderError.configError
          ⟨"OTLPExporterProtocol", config.ErrInvalidExporterProtocol⟩)) := by
  have hnot : ¬ (c.SamplingRatio < 0 ∨ c.SamplingRatio > 1) := by
    rintro (hh | hh) <;> linarith
  refine ⟨?_, ?_, ?_⟩
  · simp [otelkit.Config.Validate, hname, hver, henv, hend, hnot, htype, hproto]
  · intro c2 hch hcg httpErr grpcErr
    simp [otelkit.newProviderCreateExporter, hch, hcg]
  · intro httpErr grpcErr
    simp [provider.createExporter, iph, ipg]

/-- Witness for C4 (amended) at the "udp" configurations. -/
theorem unknown_protocol_config_error_witness :
    otelkit.Config.Validate udpConfig =
      some ⟨"OTLPExporterProtocol", otelkit.ErrInvalidExporterProtocol⟩ ∧
    (∀ c2 : otelkit.Config, c2.OTLPExporterProtocol ≠ "http" →
      c2.OTLPExporterProtocol ≠ "grpc" → ∀ httpErr grpcErr : Option String,
      otelkit.newProviderCreateExporter c2 httpErr grpcErr =
        Except.error (ProviderError.configError
          ⟨"OTLPExporterProtocol", "must be \x27grpc\x27 or \x27http\x27"⟩)) ∧
    (∀ httpErr grpcErr : Option String,
      provider.createExporter udpInternalConfig httpErr grpcErr =
        Except.error (ProviderError.configError
          ⟨"OTLPExporterProtocol", config.ErrInvalidExporterProtocol⟩)) :=
  unknown_protocol_config_error udpConfig udpInternalConfig (by decide) (by decide)
    (by decide) (by decide) (by norm_num [udpConfig, baseValidConfig])
    (by norm_num [udpConfig, baseValidConfig]) (by decide) (by decide)
    (by decide) (by decide)

/-- C1 counterexample: in the provider/factory package, an unrecognized
sampling type ("adaptive") with configured ratio 0.7 yields the
parent-based trace-id-ratio sampler at the configured ratio 0.7 — not at
the default ratio 0.2 — so the claim fails on that construction path. -/
theorem factory_sampler_fallback_counterexample :
    provider.createSampler unknownTypeConfig =
      Sampler.parentBasedTraceIDRatioBased unknownTypeConfig.SamplingRatio ∧
    provider.createSampler unknownTypeConfig =
      Sampler.parentBasedTraceIDRatioBased (0.7 : Rat) ∧
    provider.createSampler unknownTypeConfig ≠
      Sampler.parentBasedTraceIDRatioBased (0.2 : Rat) ∧
    config.DefaultSamplingRatio = (0.2 : Rat) := by
  have hs : provider.createSampler unknownTypeConfig =
      Sampler.parentBasedTraceIDRatioBased (0.7 : Rat) := by
    simp [provider.createSampler, provider.samplerFactories, unknownTypeConfig,
      provider.ProbabilisticSamplerFactory.CreateSampler, config.SamplingProbabilistic,
      config.SamplingAlwaysOn, config.SamplingAlwaysOff]
  refine ⟨hs, hs, ?_, by norm_num [config.DefaultSamplingRatio]⟩
  rw [hs]
  intro hEq
  have h7 : (0.7 : Rat) = 0.2 := by injection hEq
  norm_num at h7

/-- C1 amended: for an unrecognized sampling type, the top-level
`createSampler` (provider.go) falls back to the parent-based
trace-id-ratio sampler at the default ratio regardless of the configured
ratio, while the provider/factory-package `createSampler` falls back to
the probabilistic factory applied to the same configuration, i.e. at the
configured ratio. -/
theorem sampler_unknown_type_fallback (c : otelkit.Config) (ic : config.Config)
    (h1 : c.SamplingType ≠ "probabilistic") (h2 : c.SamplingType ≠ "always_on")
    (h3 : c.SamplingType ≠ "always_off")
    (g1 : ic.SamplingType ≠ "probabilistic") (g2 : ic.SamplingType ≠ "always_on")
    (g3 : ic.SamplingType ≠ "always_off") :
    otelkit.createSampler c =
      Sampler.parentBasedTraceIDRatioBased otelkit.DefaultSamplingRatio ∧
    provider.createSampler ic =
      Sampler.parentBasedTraceIDRatioBased ic.SamplingRatio := by
  constructor
  · simp [otelkit.createSampler, h1, h2, h3]
  · simp [provider.createSampler, provider.samplerFactories,
      provider.ProbabilisticSamplerFactory.CreateSampler, config.SamplingProbabilistic,
      config.SamplingAlwaysOn, config.SamplingAlwaysOff, g1, g2, g3]

/-- Witness for C1 (amended) at concrete "adaptive"-typed configurations. -/
theorem sampler_unknown_type_fallback_witness :
    otelkit.createSampler unknownTypeTopConfig =
      Sampler.parentBasedTraceIDRatioBased otelkit.DefaultSamplingRatio ∧
    provider.createSampler unknownTypeConfig =
      Sampler.parentBasedTraceIDRatioBased unknownTypeConfig.SamplingRatio :=
  sampler_unknown_type_fallback unknownTypeTopConfig unknownTypeConfig
    (by decide) (by decide) (by decide) (by decide) (by decide) (by decide)

/-- Folding options never changes the configured error type unless a
`WithErrorType` option occurs. -/
theorem foldl_errorType_default (opts : List tracer.ErrorOption) :
    ∀ c : tracer.ErrorConfig, (∀ t, tracer.ErrorOption.withErrorType t ∉ opts) →
      (opts.foldl tracer.applyErrorOption c).errorType = c.errorType := by
  induction opts with
  | nil => intro c _; rfl
  | cons o os ih =>
    intro c h
    have hos : ∀ t, tracer.ErrorOption.withErrorType t ∉ os := fun t ht =>
      h t (List.mem_cons_of_mem _ ht)
    cases o with
    | withErrorType t => exact absurd (List.mem_cons_self _ _) (h t)
    | withStackTrace b => exact ih _ hos
    | withErrorCode cd => exact ih _ hos
    | withErrorAttributes as => exact ih _ hos
    | nilOption => exact ih _ hos

/-- Folding options never enables stack-trace capture unless a
`WithStackTrace` option occurs. -/
theorem foldl_stackTrace_default (opts : List tracer.ErrorOption) :
    ∀ c : tracer.ErrorConfig, (∀ b, tracer.ErrorOption.withStackTrace b ∉ opts) →
      (opts.foldl tracer.applyErrorOption c).stackTrace = c.stackTrace := by
  induction opts with
  | nil => intro c _; rfl
  | cons o os ih =>
    intro c h
    have hos : ∀ b, tracer.ErrorOption.withStackTrace b ∉ os := fun b hb =>
      h b (List.mem_cons_of_mem _ hb)
    cases o with
    | withStackTrace b => exact absurd (List.mem_cons_self _ _) (h b)
    | withErrorType t => exact ih _ hos
    | withErrorCode cd => exact ih _ hos
    | withErrorAttributes as => exact ih _ hos
    | nilOption => exact ih _ hos

/-- Folding options never sets an error code unless a `WithErrorCode`
option occurs. -/
theorem foldl_errorCode_default (opts : List tracer.ErrorOption) :
    ∀ c : tracer.ErrorConfig, (∀ cd, tracer.ErrorOption.withErrorCode cd ∉ opts) →
      (opts.foldl tracer.applyErrorOption c).errorCode = c.errorCode := by
  induction opts with
  | nil => intro c _; rfl
  | cons o os ih =>
    intro c h
    have hos : ∀ cd, tracer.ErrorOption.withErrorCode cd ∉ os := fun cd hc =>
      h cd (List.mem_cons_of_mem _ hc)
    cases o with
    | withErrorCode cd => exact absurd (List.mem_cons_self _ _) (h cd)
    | withErrorType t => exact ih _ hos
    | withStackTrace b => exact ih _ hos
    | withErrorAttributes as => exact ih _ hos
    | nilOption => exact ih _ hos

/-- C7: for a non-nil span and non-nil error, `RecordErrorEnhanced` sets the
span status to Error with the error's message, and appends the `error.type`
attribute (defaulting to "custom" when no type option is given), the
`error.code` attribute exactly when a non-empty code is configured, and the
`error.stack_trace` attribute exactly when stack-trace capture is enabled
(default off), followed by any custom attributes. -/
theorem recordErrorEnhanced_classification (s : tracer.SpanState) (msg : String)
    (opts : List tracer.ErrorOption) :
    tracer.RecordErrorEnhanced (some s) (some msg) opts =
      tracer.Outcome.ok (some { s with
        recorded := s.recorded ++ [msg]
        status := tracer.SpanStatus.error
        statusMessage := msg
        attrs := s.attrs ++
          tracer.errorAttrsFor (opts.foldl tracer.applyErrorOption tracer.defaultErrorConfig) }) ∧
    ((∀ t, tracer.ErrorOption.withErrorType t ∉ opts) →
      (opts.foldl tracer.applyErrorOption tracer.defaultErrorConfig).errorType =
        tracer.ErrorTypeCustom) ∧
    ((∀ b, tracer.ErrorOption.withStackTrace b ∉ opts) →
      (opts.foldl tracer.applyErrorOption tracer.defaultErrorConfig).stackTrace = false) ∧
    ((∀ cd, tracer.ErrorOption.withErrorCode cd ∉ opts) →
      (opts.foldl tracer.applyErrorOption tracer.defaultErrorConfig).errorCode = "") ∧
    (∀ c : tracer.ErrorConfig,
      ("error.type", AttrValue.str c.errorType) ∈ tracer.classificationAttrs c ∧
      ((∃ v, ("error.code", v) ∈ tracer.classificationAttrs c) ↔ c.errorCode ≠ "") ∧
      ((∃ v, ("error.stack_trace", v) ∈ tracer.classificationAttrs c) ↔ c.stackTrace = true)) := by
  refine ⟨?_, fun h => foldl_errorType_default opts _ h,
    fun h => foldl_stackTrace_default opts _ h,
    fun h => foldl_errorCode_default opts _ h, ?_⟩
  · unfold tracer.RecordErrorEnhanced
    by_cases hc : (opts.foldl tracer.applyErrorOption tracer.defaultErrorConfig).errorCode = "" <;>
      by_cases hst : (opts.foldl tracer.applyErrorOption tracer.defaultErrorConfig).stackTrace <;>
        simp [tracer.Outcome.bind, tracer.Span.RecordError, tracer.Span.SetStatus,
          tracer.Span.SetAttributes, tracer.errorAttrsFor, tracer.classificationAttrs, hc, hst]
  · intro c
    refine ⟨?_, ?_, ?_⟩
    · by_cases hc : c.errorCode = "" <;> by_cases hst : c.stackTrace <;>
        simp [tracer.classificationAttrs, hc, hst]
    · by_cases hc : c.errorCode = "" <;> by_cases hst : c.stackTrace <;>
        simp [tracer.classificationAttrs, hc, hst]
    · by_cases hc : c.errorCode = "" <;> by_cases hst : c.stackTrace <;>
        simp [tracer.classificationAttrs, hc, hst]
